import Mathlib

/-!
Shallow embedding of the wgpu-kernel-fusion compute-graph resolver and the
elementwise shader emitter, together with proofs about the fusion policy,
the emitted workgroup sizing and dispatch grids, the shader-module caching,
and the unique-id allocator.

Sources embedded:
* src/src/element_wise.rs (UntypedElementWiseKernel, ElementWiseFunction)
* src/src/compute_graph/resolve.rs (ComputeGraphInner::resolve and the
  per-kind resolvers with the fusion paths)

Code of the repository that is not available (layout.rs, the pairwise /
reduce / matmul / resize / slice-assign kernel builders, tensor.rs) is
modelled from the specification; every such definition carries a doc
comment starting with `Modelled from the spec:`.

Conventions: machine integers (u32 / u64) are modelled as Nat (the claims
under study involve only small values where overflow cannot occur); WGSL
shader modules are identified with their source strings (shader-module
creation from a source string is injective per device); the GPU command
encoder is modelled as the list of compute passes recorded on it.
-/

namespace WKF

/-- Decimal rendering of a natural number, modelling Rust's `u64` `Display`
(as used by `format!("unary_{name_id}")` and the `format!` calls of
`tiled_map`). Little-endian digits from `Nat.digits`, printed most
significant first; `0` prints as `"0"`. -/
def natDecimal (n : Nat) : String :=
  if n = 0 then "0" else ((Nat.digits 10 n).map Nat.digitChar).reverse.asString

/-- Datatype enum from tensor.rs. Modelled from the spec: only the dtype
name (as spliced into WGSL source) and equality are relevant here. -/
inductive DataTypeEnum where
  | F16
  | F32
deriving DecidableEq

/-- WGSL spelling of a datatype, modelling the `Display` impl used by the
`format!` calls of element_wise.rs. -/
def DataTypeEnum.wgsl : DataTypeEnum → String
  | .F16 => "f16"
  | .F32 => "f32"

/-- ElementWiseFunction from element_wise.rs: an optional display name, the
unique `name_id` drawn from the global counter, and the WGSL body operating
on a variable `data`. -/
structure ElementWiseFunction where
  name : Option String
  name_id : Nat
  operation : String
deriving DecidableEq

/-- ElementWiseFunction::new from element_wise.rs. The process-wide atomic
counter is made explicit: `new` takes the current counter value and returns
the constructed function together with the incremented counter
(`COUNTER.fetch_add(1)`). -/
def ElementWiseFunction.new (operation : String) (counter : Nat) :
    ElementWiseFunction × Nat :=
  (⟨none, counter, operation⟩, counter + 1)

/-- Threads a sequence of `ElementWiseFunction::new` calls through the
process-wide counter, returning the constructed functions and the final
counter value. -/
def newFunctions : List String → Nat → List ElementWiseFunction × Nat
  | [], counter => ([], counter)
  | op :: rest, counter =>
    let fc := ElementWiseFunction.new op counter
    let rc := newFunctions rest fc.2
    (fc.1 :: rc.1, rc.2)

/-- ElementWiseFunction::call from element_wise.rs:
`format!("unary_{name_id}({data})")`. -/
def ElementWiseFunction.call (f : ElementWiseFunction) (data : String) : String :=
  "unary_" ++ natDecimal f.name_id ++ "(" ++ data ++ ")"

/-- Identifier of the helper function emitted for an elementwise function:
the `unary_{name_id}` part of ElementWiseFunction::function. -/
def helperIdent (f : ElementWiseFunction) : String :=
  "unary_" ++ natDecimal f.name_id

/-- ElementWiseFunction::function from element_wise.rs: the emitted WGSL
helper `fn unary_{name_id}(input: dtype) -> dtype { var data = input; <body>;
return data; }`. -/
def ElementWiseFunction.function (f : ElementWiseFunction) (dtype : DataTypeEnum) : String :=
  "fn unary_" ++ natDecimal f.name_id ++ "(input: " ++ dtype.wgsl ++ ") -> "
    ++ dtype.wgsl ++ " \x7b\n    var data = input;\n    " ++ f.operation
    ++ "\n    return data;\n\x7d"

/-- UntypedElementWiseKernel from element_wise.rs. The two `OnceLock`
shader-module slots are modelled as `Option String` (a module is identified
with its WGSL source). -/
structure UntypedElementWiseKernel where
  functions : List ElementWiseFunction
  dense_kernel : Option String
  sparse_kernel : Option String
  datatype : DataTypeEnum

/-- UntypedElementWiseKernel::new. -/
def UntypedElementWiseKernel.new (functions : List ElementWiseFunction)
    (datatype : DataTypeEnum) : UntypedElementWiseKernel :=
  ⟨functions, none, none, datatype⟩

/-- UntypedElementWiseKernel::empty. -/
def UntypedElementWiseKernel.empty (datatype : DataTypeEnum) : UntypedElementWiseKernel :=
  ⟨[], none, none, datatype⟩

/-- UntypedElementWiseKernel::is_empty. -/
def UntypedElementWiseKernel.is_empty (self : UntypedElementWiseKernel) : Bool :=
  self.functions.isEmpty

/-- Modelled from the spec: `out_datatype` is called by resolve.rs but is
not present in the copy of element_wise.rs under src/; per spec §3 an
elementwise op has a "single output of identical shape and dtype", so the
output datatype is the kernel's datatype. -/
def UntypedElementWiseKernel.out_datatype (self : UntypedElementWiseKernel) : DataTypeEnum :=
  self.datatype

/-- UntypedElementWiseKernel::modify_data from element_wise.rs. The `&mut
String` parameter is threaded explicitly: the result is the kernel string
after the pushes. Non-inline: one call-style line folding the functions in
reverse over the value stream starting from `"data"`. Inline: the function
bodies concatenated in reverse order, each followed by a newline. -/
def UntypedElementWiseKernel.modify_data (self : UntypedElementWiseKernel)
    (inline : Bool) (kernel : String) : String :=
  if !inline then
    let call := self.functions.reverse.foldl (fun acc f => f.call acc) "data"
    kernel ++ ("data = " ++ call ++ ";\n")
  else
    self.functions.reverse.foldl (fun k f => k ++ f.operation ++ "\n") kernel

/-- UntypedElementWiseKernel::add_functions from element_wise.rs: in the
non-inline mode, append the emitted helper function of every fused
elementwise function, in insertion order. -/
def UntypedElementWiseKernel.add_functions (self : UntypedElementWiseKernel)
    (inline : Bool) (kernel : String) : String :=
  if !inline then
    self.functions.foldl (fun k f => k ++ f.function self.datatype) kernel
  else
    kernel

/-- Tensor layout: offset, shape and strides. Modelled from the spec §3
(layout.rs is not under src/): `{ offset, shape[≤3], strides[≤3] }`. -/
structure Layout where
  offset : Nat
  shape : List Nat
  strides : List Nat
deriving DecidableEq

/-- Rank of a layout: the number of axes. -/
def Layout.rank (l : Layout) : Nat := l.shape.length

/-- Row-major contiguous strides for a shape: `stride_i = Π_{j>i} shape_j`. -/
def contiguousStrides : List Nat → List Nat
  | [] => []
  | _ :: rest => rest.prod :: contiguousStrides rest

/-- Modelled from the spec: `is_contiguous` is the derived contiguity
predicate of a layout (spec §3); a layout is contiguous when it has no
offset and row-major strides. -/
def Layout.is_contiguous (l : Layout) : Bool :=
  l.offset == 0 && l.strides == contiguousStrides l.shape

/-- Modelled from the spec §4.4: the WGSL struct declaration emitted by
`TensorLayout::wgsl_type_definition` (layout.rs is not under src/): a
`TensorLayout` uniform struct with `offset`, `shape_0..shape_{r-1}` and
`stride_0..stride_{r-1}` fields, all `u32`. -/
def Layout.wgsl_type_definition (l : Layout) : String :=
  "struct TensorLayout \x7b\n    offset: u32,\n"
    ++ String.join ((List.range l.rank).map
        (fun i => "    shape_" ++ natDecimal i ++ ": u32,\n"))
    ++ String.join ((List.range l.rank).map
        (fun i => "    stride_" ++ natDecimal i ++ ": u32,\n"))
    ++ "\x7d;\n"

/-- Handle to a realized tensor. Modelled from the spec §3 (tensor.rs is not
under src/): buffer reference (an opaque id), layout and dtype. -/
structure TensorData where
  bufferId : Nat
  layout : Layout
  datatype : DataTypeEnum
deriving DecidableEq

/-- A compute pass recorded on the command encoder: the shader module the
pipeline was built from and the dispatched workgroup grid. -/
structure ComputePass where
  module : String
  gridX : Nat
  gridY : Nat
  gridZ : Nat
deriving DecidableEq

/-- Grid dimension of a pass by axis index (0 = x, 1 = y, 2 = z). -/
def ComputePass.gridDim (p : ComputePass) : Nat → Nat
  | 0 => p.gridX
  | 1 => p.gridY
  | _ => p.gridZ

/-- Ceiling division on Nat, mirroring Rust's `u32::div_ceil`:
`(a + b - 1) / b`. -/
def divCeil (a b : Nat) : Nat := (a + b - 1) / b

/-- Modelled blocksize for the strided path: the value of
`(256f64.powf(1. / rank as f64)).floor() as u32` computed by
`run_with_query` for the ranks 1, 2 and 3 that the kernel supports
(`tiled_map` asserts rank ≤ 3). The floating-point computation evaluates to
exactly 256, 16 and 6 for those ranks. -/
def stridedBlocksize : Nat → Nat
  | 1 => 256
  | 2 => 16
  | _ => 6

/-- Tab indentation of depth `n`, modelling repeated `kernel.push('\t')`. -/
def tabs (n : Nat) : String := String.mk (List.replicate n '\t')

/-- Axis letter for a grid dimension: `["x", "y", "z"][i]`. -/
def axisName : Nat → String
  | 0 => "x"
  | 1 => "y"
  | _ => "z"

/-- Textual fragment emitted between the parentheses of
`@workgroup_size(...)` by `tiled_map`: a single `BLOCKSIZE` on the
contiguous path, and `BLOCKSIZE` repeated `rank` times separated by `", "`
on the strided path. -/
def workgroupSizeFragment (contiguous : Bool) (rank : Nat) : String :=
  if contiguous then "BLOCKSIZE"
  else String.intercalate ", " (List.replicate rank "BLOCKSIZE")

/-- Numeric entries of the emitted `@workgroup_size` attribute once the
`BLOCKSIZE` constant is substituted. -/
def workgroupEntries (contiguous : Bool) (rank blocksize : Nat) : List Nat :=
  if contiguous then [blocksize] else List.replicate rank blocksize

/-- WGSL semantics of a `@workgroup_size` attribute: dimensions that are not
specified default to 1 (WGSL spec), so the entry list denotes this triple. -/
def wgslWorkgroupTriple (entries : List Nat) : Nat × Nat × Nat :=
  (entries.getD 0 1, entries.getD 1 1, entries.getD 2 1)

/-- Body of the contiguous (dense) path of `tiled_map`: one unrolled
load/apply/store block per tile element. -/
def densePathBody (self : UntypedElementWiseKernel) (tileSize : Nat)
    (inline : Bool) (rank : Nat) (kernel : String) : String :=
  (List.range tileSize).foldl
    (fun kernel local_index =>
      let index := "index_" ++ natDecimal local_index
      let kernel := kernel ++ ("\t\tlet " ++ index
        ++ " = global_id.x * TILE_SIZE + " ++ natDecimal local_index ++ ";\n")
      let kernel := kernel ++ ("\t\tif " ++ index ++ " < \n")
      let kernel := kernel ++ String.intercalate " * "
        ((List.range rank).map (fun i => "tensor_layout.shape_" ++ natDecimal i))
      let kernel := kernel ++ " \x7b\n"
      let kernel := kernel ++ ("\t\t\tvar data = tensor[" ++ index ++ "];\n")
      let kernel := kernel ++ "\t\t\t"
      let kernel := self.modify_data inline kernel
      let kernel := kernel ++ ("\t\t\ttensor[" ++ index ++ "] = data;\n")
      kernel ++ "\t\t\x7d\n")
    kernel

/-- Body of the strided (sparse) path of `tiled_map`: per-axis tile origins,
`rank` nested tile loops, a bound check on every axis, then strided
load/apply/store. -/
def stridedPathBody (self : UntypedElementWiseKernel)
    (inline : Bool) (rank : Nat) (kernel : String) : String :=
  let kernel := (List.range rank).foldl
    (fun kernel i => kernel ++ ("\tlet tile_index_" ++ natDecimal i
      ++ " = global_id." ++ axisName i ++ " * TILE_SIZE;\n"))
    kernel
  let kernel := kernel ++ "\n"
  let kernel := (List.range rank).foldl
    (fun kernel i => kernel ++ tabs (i + 1)
      ++ ("for (var local_index_" ++ natDecimal i ++ " = 0u; local_index_"
        ++ natDecimal i ++ " < TILE_SIZE; local_index_" ++ natDecimal i
        ++ "++) \x7b\n"))
    kernel
  let kernel := (List.range rank).foldl
    (fun kernel i => kernel ++ tabs (rank + 1)
      ++ ("let merged_index_" ++ natDecimal i ++ " = tile_index_"
        ++ natDecimal i ++ " + local_index_" ++ natDecimal i ++ ";\n"))
    kernel
  let kernel := kernel ++ tabs (rank + 1)
  let kernel := kernel ++ "if "
  let kernel := (List.range rank).foldl
    (fun kernel i => kernel ++ ("merged_index_" ++ natDecimal i
      ++ " < tensor_layout.shape_" ++ natDecimal i ++ " && "))
    kernel
  let kernel := kernel ++ "true \x7b\n"
  let kernel := kernel ++ tabs (rank + 2)
  let kernel := kernel ++ "let index = tensor_layout.offset + "
  let kernel := (List.range rank).foldl
    (fun kernel i => kernel ++ ("tensor_layout.stride_" ++ natDecimal i
      ++ " * merged_index_" ++ natDecimal i ++ " + "))
    kernel
  let kernel := kernel ++ "0;\n"
  let kernel := kernel ++ tabs (rank + 2)
  let kernel := kernel ++ "\t\t\tvar data = tensor[index];\n"
  let kernel := self.modify_data inline kernel
  let kernel := kernel ++ "\t\t\ttensor[index] = data;\n"
  let kernel := kernel ++ tabs (rank + 1)
  let kernel := kernel ++ "\x7d\n"
  ((List.range rank).reverse).foldl
    (fun kernel i => kernel ++ tabs (i + 1) ++ "\x7d\n")
    kernel

/-- UntypedElementWiseKernel::tiled_map from element_wise.rs: emits the
complete WGSL compute-shader source specialized to the blocksize, tile
size, contiguity and layout. `TILE_SIZE` (a constant of layout.rs, not
under src/) is passed explicitly as `tileSize`. -/
def UntypedElementWiseKernel.tiled_map (self : UntypedElementWiseKernel)
    (blocksize tileSize : Nat) (inline contiguous : Bool)
    (tensor_layout : Layout) : String :=
  let dtype := self.datatype
  let rank := tensor_layout.rank
  let kernel := if dtype = DataTypeEnum.F16 then "enable f16;\n" else ""
  let kernel := kernel ++ tensor_layout.wgsl_type_definition
  let kernel := kernel ++ "@group(0) @binding(0) var<uniform> tensor_layout: TensorLayout;\n"
  let kernel := kernel ++ ("@group(0) @binding(1) var<storage, read_write> tensor: array<"
    ++ dtype.wgsl ++ ">;\n")
  let kernel := kernel ++ ("const BLOCKSIZE: u32 = " ++ natDecimal blocksize ++ "u;\n")
  let kernel := kernel ++ ("const TILE_SIZE: u32 = " ++ natDecimal tileSize ++ "u;\n")
  let kernel := self.add_functions inline kernel
  let kernel := kernel ++ "\n@compute @workgroup_size("
  let kernel := kernel ++ workgroupSizeFragment contiguous rank
  let kernel := kernel ++ ")\n"
  let kernel := kernel ++ "fn main(@builtin(global_invocation_id) global_id: vec3<u32>) \x7b\n"
  let kernel :=
    if contiguous then densePathBody self tileSize inline rank kernel
    else stridedPathBody self inline rank kernel
  kernel ++ "\x7d\n"

/-- UntypedElementWiseKernel::run_with_query from element_wise.rs. Selects
the dense or strided path from the layout's contiguity, computes the
blocksize, lazily compiles the shader module into the matching `OnceLock`
slot, builds the pipeline and bind group, and records exactly one compute
pass with the computed workgroup grid on the command encoder. Returns the
kernel (with its possibly freshly-populated cache slot) and the recorded
pass; the performance query is `None` at every call site under src/. -/
def UntypedElementWiseKernel.run_with_query (self : UntypedElementWiseKernel)
    (tensor : TensorData) (tileSize : Nat) :
    UntypedElementWiseKernel × ComputePass :=
  let contiguous := tensor.layout.is_contiguous
  let rank := tensor.layout.rank
  let max_blocksize := if contiguous then 256 else stridedBlocksize rank
  let ms : String × UntypedElementWiseKernel :=
    if contiguous then
      match self.dense_kernel with
      | some m => (m, self)
      | none =>
        let source := self.tiled_map max_blocksize tileSize true contiguous tensor.layout
        (source, { self with dense_kernel := some source })
    else
      match self.sparse_kernel with
      | some m => (m, self)
      | none =>
        let source := self.tiled_map max_blocksize tileSize true contiguous tensor.layout
        (source, { self with sparse_kernel := some source })
  let shape := tensor.layout.shape
  let grid : Nat × Nat × Nat :=
    if contiguous then
      (divCeil shape.prod (tileSize * max_blocksize), 1, 1)
    else
      (((shape.get? 0).map (fun x => divCeil x (tileSize * max_blocksize))).getD 1,
       ((shape.get? 1).map (fun x => divCeil x (tileSize * max_blocksize))).getD 1,
       ((shape.get? 2).map (fun x => divCeil x (tileSize * max_blocksize))).getD 1)
  (ms.2, ⟨ms.1, grid.1, grid.2.1, grid.2.2⟩)

/-- Runs a kernel instance over a sequence of tensors, threading the cache
slots, and returns the final kernel state. -/
def UntypedElementWiseKernel.runSeq (self : UntypedElementWiseKernel)
    (tensors : List TensorData) (tileSize : Nat) : UntypedElementWiseKernel :=
  tensors.foldl (fun k t => (k.run_with_query t tileSize).1) self

/-- Modelled from the spec: the `Option`-returning view of the elementwise
kernel run that resolve.rs line 84 relies on (`run_with_query(...,
query, encoder).unwrap_or(input)`): per spec §7(d) an elementwise kernel
with zero functions is a no-op, the dispatch is skipped and no output is
produced (`none`); otherwise the in-place run records its single pass and
the result handle is the input tensor. The copy of element_wise.rs under
src/ instead returns unit and never skips; see the C1 analysis. -/
def UntypedElementWiseKernel.runOpt (self : UntypedElementWiseKernel)
    (tensor : TensorData) (tileSize : Nat) :
    Option TensorData × UntypedElementWiseKernel × List ComputePass :=
  if self.functions.isEmpty then (none, self, [])
  else
    let r := self.run_with_query tensor tileSize
    (some tensor, r.1, [r.2])

/-- AnyComputeKey from compute_graph: a tagged handle `(kind, id)` over the
eight node kinds. -/
inductive AnyComputeKey where
  | ElementWiseComputeNodeKey (id : Nat)
  | PairWiseComputeNodeKey (id : Nat)
  | MatMulComputeNodeKey (id : Nat)
  | ReduceComputeNodeKey (id : Nat)
  | TensorComputeNodeKey (id : Nat)
  | MapLayoutComputeNodeKey (id : Nat)
  | ResizeComputeNodeKey (id : Nat)
  | SliceAssignComputeNodeKey (id : Nat)
deriving DecidableEq

/-- ElementWiseOperation from element_wise.rs: the input key and the fused
function of one elementwise node. -/
structure ElementWiseOperation where
  value : AnyComputeKey
  function : ElementWiseFunction

/-- PairWise op record. Modelled from the spec §3: two input keys and an
opaque binary function payload (the payload itself is external to src/ and
is carried as an opaque string). -/
structure PairWiseOperation where
  first : AnyComputeKey
  second : AnyComputeKey
  function : String

/-- Reduce op record. Modelled from the spec §3: input key, axis and an
opaque reduction function payload. -/
structure ReduceOperation where
  value : AnyComputeKey
  axis : Nat
  function : String

/-- MatMul op record. Modelled from the spec §3: two input keys. -/
structure MatMulOperation where
  first : AnyComputeKey
  second : AnyComputeKey

/-- MapLayout op record. Modelled from the spec §3: input key and a pure
layout transform `LayoutTransform`. -/
structure MapLayoutOperation where
  input : AnyComputeKey
  transform : Layout → Layout

/-- Modelled from the spec: `MapLayoutOperation::run` (resolve.rs line 195
calls `operation.run(&input)` without passing the command encoder) applies
the layout transform as a pure metadata operation on the resolved input
tensor; no GPU work is emitted. -/
def MapLayoutOperation.run (op : MapLayoutOperation) (t : TensorData) : TensorData :=
  { t with layout := op.transform t.layout }

/-- Resize op record. Modelled from the spec §3: input key, new shape and
fill shape. -/
structure ResizeOperation where
  input : AnyComputeKey
  new_shape : List Nat
  fill_shape : List Nat

/-- SliceAssign op record. Modelled from the spec §3: input and value keys
plus the slice parameters (opaque here). -/
structure SliceAssignOperation where
  input : AnyComputeKey
  value : AnyComputeKey
  slices : List (Nat × Nat)

/-- ComputeGraphInner: the per-kind id → record maps of the graph store. -/
structure ComputeGraphInner where
  element_wise : Nat → Option ElementWiseOperation
  pair_wise : Nat → Option PairWiseOperation
  mat_mul : Nat → Option MatMulOperation
  reduce : Nat → Option ReduceOperation
  tensor : Nat → Option TensorData
  map_layout : Nat → Option MapLayoutOperation
  resize : Nat → Option ResizeOperation
  slice_assign : Nat → Option SliceAssignOperation

/-- UntypedPairWiseKernel. Modelled from the spec §6: built by `new(fn,
dtype)` then configured with `set_pre_element_wise([left, right])` and
`set_post_element_wise(post)`. -/
structure UntypedPairWiseKernel where
  function : String
  datatype : DataTypeEnum
  pre_element_wise : UntypedElementWiseKernel × UntypedElementWiseKernel
  post_element_wise : UntypedElementWiseKernel

/-- Modelled from the spec §6: `UntypedPairWiseKernel::new(fn, dtype)` with
empty pre and post elementwise stages. -/
def UntypedPairWiseKernel.new (function : String) (datatype : DataTypeEnum) :
    UntypedPairWiseKernel :=
  ⟨function, datatype, (.empty datatype, .empty datatype), .empty datatype⟩

/-- Modelled from the spec §6: `set_pre_element_wise([left, right])`. -/
def UntypedPairWiseKernel.set_pre_element_wise (self : UntypedPairWiseKernel)
    (pre : UntypedElementWiseKernel × UntypedElementWiseKernel) :
    UntypedPairWiseKernel :=
  { self with pre_element_wise := pre }

/-- Modelled from the spec §6: `set_post_element_wise(post)`. -/
def UntypedPairWiseKernel.set_post_element_wise (self : UntypedPairWiseKernel)
    (post : UntypedElementWiseKernel) : UntypedPairWiseKernel :=
  { self with post_element_wise := post }

/-- UntypedReduceKernel. Modelled from the spec §6: built by `new(fn,
dtype)` then configured with one pre and one post elementwise stage. -/
structure UntypedReduceKernel where
  function : String
  datatype : DataTypeEnum
  pre_element_wise : UntypedElementWiseKernel
  post_element_wise : UntypedElementWiseKernel

/-- Modelled from the spec §6: `UntypedReduceKernel::new(fn, dtype)`. -/
def UntypedReduceKernel.new (function : String) (datatype : DataTypeEnum) :
    UntypedReduceKernel :=
  ⟨function, datatype, .empty datatype, .empty datatype⟩

/-- Modelled from the spec §6: `set_pre_element_wise(pre)` on a reduce
kernel. -/
def UntypedReduceKernel.set_pre_element_wise (self : UntypedReduceKernel)
    (pre : UntypedElementWiseKernel) : UntypedReduceKernel :=
  { self with pre_element_wise := pre }

/-- Modelled from the spec §6: `set_post_element_wise(post)` on a reduce
kernel. -/
def UntypedReduceKernel.set_post_element_wise (self : UntypedReduceKernel)
    (post : UntypedElementWiseKernel) : UntypedReduceKernel :=
  { self with post_element_wise := post }

/-- Modelled from the spec §6: the opaque kernel builders invoked by the
resolver whose bodies live outside src/. Each run returns the produced
tensor (for the pairwise kernel an `Option`, matching
`run_with_query(...).unwrap_or(second)` at resolve.rs line 134) together
with the compute passes it appends to the encoder. The resolver theorems
hold for every behavior of these collaborators. -/
structure ExternalKernels where
  pairRun : UntypedPairWiseKernel → TensorData → TensorData →
    Option TensorData × List ComputePass
  reduceRun : UntypedReduceKernel → TensorData → Nat →
    TensorData × List ComputePass
  matMulRun : DataTypeEnum → TensorData → TensorData →
    TensorData × List ComputePass
  resizeRun : List Nat → List Nat → TensorData →
    TensorData × List ComputePass
  sliceAssignRun : List (Nat × Nat) → TensorData → TensorData →
    TensorData × List ComputePass

/-- ComputeGraphInner::collect_element_wise_ops from resolve.rs: starting
from an elementwise key, walk `operation.value` while it is also
elementwise, pushing each node's function in traversal order (nearest to
the root first); the walk terminates at the first non-elementwise input.
The `while let` loop is given explicit fuel; a missing record
(`get(...).unwrap()` panic) or exhausted fuel yields `none`. -/
def collectElementWiseOps (g : ComputeGraphInner) :
    Nat → Nat → Option (List ElementWiseFunction × AnyComputeKey)
  | 0, _ => none
  | fuel + 1, key =>
    match g.element_wise key with
    | none => none
    | some operation =>
      match operation.value with
      | .ElementWiseComputeNodeKey k =>
        match collectElementWiseOps g fuel k with
        | none => none
        | some fc => some (operation.function :: fc.1, fc.2)
      | terminal => some ([operation.function], terminal)

/-- Peel of one producer input as done inline by resolve_pair_wise_then and
resolve_reduce_then: if the input key is elementwise, collect its chain and
replace the input by the chain's terminal; otherwise no pre functions and
the input key unchanged. -/
def peelElementWise (g : ComputeGraphInner) (fuel : Nat) :
    AnyComputeKey → Option (List ElementWiseFunction × AnyComputeKey)
  | .ElementWiseComputeNodeKey k => collectElementWiseOps g fuel k
  | other => some ([], other)

/-- Requests of the mutually recursive resolver functions of resolve.rs,
used to express the mutual recursion as one fuel-indexed function:
`go` is ComputeGraphInner::resolve, `elementWise` is resolve_element_wise,
`pairThen` is resolve_pair_wise_then and `reduceThen` is
resolve_reduce_then (resolve_pair_wise and resolve_reduce are the `[]`
instances of the latter two). -/
inductive ResolveCall where
  | go (key : AnyComputeKey)
  | elementWise (key : Nat)
  | pairThen (key : Nat) (thenFns : List ElementWiseFunction)
  | reduceThen (key : Nat) (thenFns : List ElementWiseFunction)

/-- Fuel-indexed embedding of the resolver family of resolve.rs. The
command encoder is the accumulated pass list; every resolver returns the
realized tensor together with the encoder contents after its appends.
`none` models a panic (missing record) or exhausted fuel. Each branch
transcribes the corresponding Rust function; recursive `self.resolve`
calls decrease the fuel. -/
def resolveCore (ext : ExternalKernels) (g : ComputeGraphInner) (tileSize : Nat) :
    Nat → ResolveCall → List ComputePass → Option (TensorData × List ComputePass)
  | 0, _, _ => none
  | fuel + 1, .go key, encoder =>
    match key with
    | .ElementWiseComputeNodeKey k => resolveCore ext g tileSize fuel (.elementWise k) encoder
    | .PairWiseComputeNodeKey k => resolveCore ext g tileSize fuel (.pairThen k []) encoder
    | .MatMulComputeNodeKey k =>
      match g.mat_mul k with
      | none => none
      | some operation =>
        match resolveCore ext g tileSize fuel (.go operation.first) encoder with
        | none => none
        | some (first, enc1) =>
          match resolveCore ext g tileSize fuel (.go operation.second) enc1 with
          | none => none
          | some (second, enc2) =>
            let r := ext.matMulRun first.datatype first second
            some (r.1, enc2 ++ r.2)
    | .ReduceComputeNodeKey k => resolveCore ext g tileSize fuel (.reduceThen k []) encoder
    | .TensorComputeNodeKey k =>
      match g.tensor k with
      | none => none
      | some t => some (t, encoder)
    | .MapLayoutComputeNodeKey k =>
      match g.map_layout k with
      | none => none
      | some operation =>
        match resolveCore ext g tileSize fuel (.go operation.input) encoder with
        | none => none
        | some (input, enc1) => some (operation.run input, enc1)
    | .ResizeComputeNodeKey k =>
      match g.resize k with
      | none => none
      | some operation =>
        match resolveCore ext g tileSize fuel (.go operation.input) encoder with
        | none => none
        | some (input, enc1) =>
          let r := ext.resizeRun operation.new_shape operation.fill_shape input
          some (r.1, enc1 ++ r.2)
    | .SliceAssignComputeNodeKey k =>
      match g.slice_assign k with
      | none => none
      | some operation =>
        match resolveCore ext g tileSize fuel (.go operation.input) encoder with
        | none => none
        | some (input, enc1) =>
          match resolveCore ext g tileSize fuel (.go operation.value) enc1 with
          | none => none
          | some (value, enc2) =>
            let r := ext.sliceAssignRun operation.slices input value
            some (r.1, enc2 ++ r.2)
  | fuel + 1, .elementWise key, encoder =>
    match collectElementWiseOps g (fuel + 1) key with
    | none => none
    | some (functions, input) =>
      match input with
      | .ReduceComputeNodeKey k => resolveCore ext g tileSize fuel (.reduceThen k functions) encoder
      | .PairWiseComputeNodeKey k => resolveCore ext g tileSize fuel (.pairThen k functions) encoder
      | _ =>
        match resolveCore ext g tileSize fuel (.go input) encoder with
        | none => none
        | some (input', enc1) =>
          let kernel := UntypedElementWiseKernel.new functions input'.datatype
          let r := kernel.runOpt input' tileSize
          some (r.1.getD input', enc1 ++ r.2.2)
  | fuel + 1, .pairThen key thenFns, encoder =>
    match g.pair_wise key with
    | none => none
    | some operation =>
      match peelElementWise g (fuel + 1) operation.first with
      | none => none
      | some (first_pre_element_wise, first_input) =>
        match peelElementWise g (fuel + 1) operation.second with
        | none => none
        | some (second_pre_element_wise, second_input) =>
          match resolveCore ext g tileSize fuel (.go first_input) encoder with
          | none => none
          | some (first, enc1) =>
            match resolveCore ext g tileSize fuel (.go second_input) enc1 with
            | none => none
            | some (second, enc2) =>
              let kernel := UntypedPairWiseKernel.new operation.function first.datatype
              let first_pre := UntypedElementWiseKernel.new first_pre_element_wise first.datatype
              let second_pre := UntypedElementWiseKernel.new second_pre_element_wise first.datatype
              let pre_element_wise_output := first_pre.out_datatype
              let kernel := kernel.set_pre_element_wise (first_pre, second_pre)
              let kernel := kernel.set_post_element_wise
                (UntypedElementWiseKernel.new thenFns pre_element_wise_output)
              let r := ext.pairRun kernel first second
              some (r.1.getD second, enc2 ++ r.2)
  | fuel + 1, .reduceThen key thenFns, encoder =>
    match g.reduce key with
    | none => none
    | some operation =>
      match peelElementWise g (fuel + 1) operation.value with
      | none => none
      | some (element_wise_before, input_key) =>
        match resolveCore ext g tileSize fuel (.go input_key) encoder with
        | none => none
        | some (input, enc1) =>
          let kernel := UntypedReduceKernel.new operation.function input.datatype
          let element_wise_before := UntypedElementWiseKernel.new element_wise_before input.datatype
          let element_wise_after := UntypedElementWiseKernel.new thenFns element_wise_before.out_datatype
          let kernel := kernel.set_post_element_wise element_wise_after
          let kernel := kernel.set_pre_element_wise element_wise_before
          let r := ext.reduceRun kernel input operation.axis
          some (r.1, enc1 ++ r.2)

/-- ComputeGraphInner::resolve from resolve.rs (the graphviz dump it prints
before dispatching has no effect on the result or the encoder). -/
def resolveGo (ext : ExternalKernels) (g : ComputeGraphInner) (tileSize fuel : Nat)
    (key : AnyComputeKey) (encoder : List ComputePass) :
    Option (TensorData × List ComputePass) :=
  resolveCore ext g tileSize fuel (.go key) encoder

/-- ComputeGraphInner::resolve_element_wise from resolve.rs. -/
def resolveElementWise (ext : ExternalKernels) (g : ComputeGraphInner) (tileSize fuel : Nat)
    (key : Nat) (encoder : List ComputePass) :
    Option (TensorData × List ComputePass) :=
  resolveCore ext g tileSize fuel (.elementWise key) encoder

/-- ComputeGraphInner::resolve_pair_wise_then from resolve.rs. -/
def resolvePairWiseThen (ext : ExternalKernels) (g : ComputeGraphInner) (tileSize fuel : Nat)
    (key : Nat) (thenFns : List ElementWiseFunction) (encoder : List ComputePass) :
    Option (TensorData × List ComputePass) :=
  resolveCore ext g tileSize fuel (.pairThen key thenFns) encoder

/-- ComputeGraphInner::resolve_reduce_then from resolve.rs. -/
def resolveReduceThen (ext : ExternalKernels) (g : ComputeGraphInner) (tileSize fuel : Nat)
    (key : Nat) (thenFns : List ElementWiseFunction) (encoder : List ComputePass) :
    Option (TensorData × List ComputePass) :=
  resolveCore ext g tileSize fuel (.reduceThen key thenFns) encoder

/-- Keys that the elementwise fusion path absorbs into a producer kernel:
exactly the reduce and pairwise node kinds. -/
def absorbable : AnyComputeKey → Bool
  | .ReduceComputeNodeKey _ => true
  | .PairWiseComputeNodeKey _ => true
  | _ => false

/-- The pairwise kernel exactly as resolve_pair_wise_then configures it:
built on the first operand's datatype, pre stages from the two peeled
operand chains (the second pre also uses the first operand's datatype, as
in the source), and the post stage from the tail chain. -/
def pairKernelFor (function : String) (dt : DataTypeEnum)
    (fs1 fs2 post : List ElementWiseFunction) : UntypedPairWiseKernel :=
  ((UntypedPairWiseKernel.new function dt).set_pre_element_wise
      (UntypedElementWiseKernel.new fs1 dt, UntypedElementWiseKernel.new fs2 dt)).set_post_element_wise
    (UntypedElementWiseKernel.new post (UntypedElementWiseKernel.new fs1 dt).out_datatype)

/-- The reduce kernel exactly as resolve_reduce_then configures it: pre
stage from the peeled input chain, post stage from the tail chain. -/
def reduceKernelFor (function : String) (dt : DataTypeEnum)
    (pre post : List ElementWiseFunction) : UntypedReduceKernel :=
  (((UntypedReduceKernel.new function dt).set_post_element_wise
      (UntypedElementWiseKernel.new post
        (UntypedElementWiseKernel.new pre dt).out_datatype)).set_pre_element_wise
    (UntypedElementWiseKernel.new pre dt))

/-- Call-style nesting of a collected chain onto the value stream: the
first-collected (nearest-to-root) function is outermost, the
last-collected (earliest producer) function is applied directly to `data`,
innermost. -/
def nestCall : List ElementWiseFunction → String
  | [] => "data"
  | f :: fs => f.call (nestCall fs)

/-- Concatenation of function bodies in list order, each body followed by a
newline: the head of the list contributes the first body in the emitted
text. -/
def inlineConcat : List ElementWiseFunction → String
  | [] => ""
  | f :: fs => f.operation ++ "\n" ++ inlineConcat fs

/-- The statement that `q` is the least workgroup count such that `q`
workgroups of `b` elements each cover all `n` elements, i.e.
`q = ceil(n / b)`. -/
def isLeastCover (q n b : Nat) : Prop :=
  n ≤ q * b ∧ ∀ m, n ≤ m * b → q ≤ m

/-- Fixture: a first elementwise function (id 0). -/
def fA : ElementWiseFunction := ⟨some "add_const", 0, "data = data + 1;"⟩

/-- Fixture: a second elementwise function (id 1). -/
def fB : ElementWiseFunction := ⟨some "multiply_const", 1, "data = data * 2;"⟩

/-- Fixture: a third elementwise function (id 2). -/
def fC : ElementWiseFunction := ⟨some "exp", 2, "data = exp(data);"⟩

/-- Fixture: a fourth elementwise function (id 3). -/
def fD : ElementWiseFunction := ⟨some "sqrt", 3, "data = sqrt(data);"⟩

/-- Fixture: a contiguous rank-1 layout of shape `[4]`. -/
def layDense : Layout := ⟨0, [4], [1]⟩

/-- Fixture: a non-contiguous rank-2 layout (strides `[2, 2]` instead of the
contiguous `[2, 1]`, as produced by a column slice). -/
def layStrided : Layout := ⟨0, [3, 2], [2, 2]⟩

/-- Fixture: a materialized contiguous tensor. -/
def tDemo : TensorData := ⟨0, layDense, .F32⟩

/-- Fixture: a second materialized contiguous tensor. -/
def tDemo2 : TensorData := ⟨1, layDense, .F32⟩

/-- Fixture: a materialized non-contiguous tensor. -/
def tStrided : TensorData := ⟨2, layStrided, .F32⟩

/-- Fixture: the map-layout record used in the demo graph. -/
def mlDemo : MapLayoutOperation := ⟨.TensorComputeNodeKey 0, id⟩

/-- Fixture graph: tensors 0 and 1; elementwise chain 0 → 1 → tensor 0
(functions `fB` then `fA`); elementwise 2 over reduce 0; elementwise 3 over
tensor 1; pairwise 0 over the two elementwise chains; reduce 0 over tensor
0 and reduce 1 over elementwise 1; a map-layout node over tensor 0. -/
def gDemo : ComputeGraphInner where
  element_wise := fun n =>
    if n = 0 then some ⟨.ElementWiseComputeNodeKey 1, fB⟩
    else if n = 1 then some ⟨.TensorComputeNodeKey 0, fA⟩
    else if n = 2 then some ⟨.ReduceComputeNodeKey 0, fC⟩
    else if n = 3 then some ⟨.TensorComputeNodeKey 1, fD⟩
    else none
  pair_wise := fun n =>
    if n = 0 then
      some ⟨.ElementWiseComputeNodeKey 0, .ElementWiseComputeNodeKey 3, "add"⟩
    else none
  mat_mul := fun _ => none
  reduce := fun n =>
    if n = 0 then some ⟨.TensorComputeNodeKey 0, 0, "sum"⟩
    else if n = 1 then some ⟨.ElementWiseComputeNodeKey 1, 0, "sum"⟩
    else none
  tensor := fun n =>
    if n = 0 then some tDemo else if n = 1 then some tDemo2 else none
  map_layout := fun n => if n = 0 then some mlDemo else none
  resize := fun _ => none
  slice_assign := fun _ => none

/-- Fixture behavior of the external kernel builders: every run appends one
pass and returns a tensor. -/
def extDemo : ExternalKernels where
  pairRun := fun _ _ b => (some b, [⟨"pair", 1, 1, 1⟩])
  reduceRun := fun _ i _ => (i, [⟨"reduce", 1, 1, 1⟩])
  matMulRun := fun _ a _ => (a, [⟨"matmul", 1, 1, 1⟩])
  resizeRun := fun _ _ t => (t, [⟨"resize", 1, 1, 1⟩])
  sliceAssignRun := fun _ t _ => (t, [⟨"slice_assign", 1, 1, 1⟩])

/-- Fixture behavior where the pairwise kernel run produces no output
tensor. -/
def extNone : ExternalKernels where
  pairRun := fun _ _ _ => (none, [])
  reduceRun := fun _ i _ => (i, [])
  matMulRun := fun _ a _ => (a, [])
  resizeRun := fun _ _ t => (t, [])
  sliceAssignRun := fun _ t _ => (t, [])

/-! Helper lemmas. -/

theorem nestCall_foldr (fs : List ElementWiseFunction) :
    fs.foldr (fun f acc => f.call acc) "data" = nestCall fs := by
  induction fs with
  | nil => rfl
  | cons f fs ih => simp [nestCall, ih]

theorem foldl_inlineConcat (l : List ElementWiseFunction) (k : String) :
    l.foldl (fun k f => k ++ f.operation ++ "\n") k = k ++ inlineConcat l := by
  induction l generalizing k with
  | nil => simp [inlineConcat]
  | cons f fs ih =>
    simp only [List.foldl_cons, inlineConcat, ih]
    rw [String.append_assoc, String.append_assoc]
    rw [String.append_assoc]

theorem digitChar_inj10 (a b : Nat) (ha : a < 10) (hb : b < 10)
    (h : Nat.digitChar a = Nat.digitChar b) : a = b := by
  interval_cases a <;> interval_cases b <;> first | rfl | (exact absurd h (by decide))

theorem map_digitChar_cancel : ∀ (l1 l2 : List Nat),
    (∀ d ∈ l1, d < 10) → (∀ d ∈ l2, d < 10) →
    l1.map Nat.digitChar = l2.map Nat.digitChar → l1 = l2 := by
  intro l1
  induction l1 with
  | nil =>
    intro l2 _ _ h
    cases l2 with
    | nil => rfl
    | cons b t2 => simp at h
  | cons a t ih =>
    intro l2 h1 h2 h
    cases l2 with
    | nil => simp at h
    | cons b t2 =>
      simp only [List.map_cons, List.cons.injEq] at h
      have hab := digitChar_inj10 a b (h1 a (by simp)) (h2 b (by simp)) h.1
      subst hab
      have := ih t2 (fun d hd => h1 d (by simp [hd])) (fun d hd => h2 d (by simp [hd])) h.2
      rw [this]

theorem asString_cancel (l1 l2 : List Char) (h : l1.asString = l2.asString) : l1 = l2 := by
  have := congrArg String.data h
  simpa [List.asString] using this

theorem natDecimal_not_zero_string (b : Nat) (hb : b ≠ 0) :
    ((Nat.digits 10 b).map Nat.digitChar).reverse.asString ≠ "0" := by
  intro h
  have hl := asString_cancel _ _ h
  have hrev : (Nat.digits 10 b).map Nat.digitChar = ['0'] := by
    have := congrArg List.reverse hl
    simpa using this
  rcases hd : Nat.digits 10 b with _ | ⟨d, rest⟩
  · rw [hd] at hrev; simp at hrev
  · rw [hd] at hrev
    simp only [List.map_cons, List.cons.injEq] at hrev
    have hrest : rest = [] := by
      have := hrev.2
      simpa using List.map_eq_nil_iff.mp this
    have hd10 : d < 10 := Nat.digits_lt_base (by norm_num) (by rw [hd]; simp)
    have hzero : d = 0 := digitChar_inj10 d 0 hd10 (by norm_num) (by rw [hrev.1]; rfl)
    have := Nat.ofDigits_digits 10 b
    rw [hd, hrest, hzero] at this
    simp [Nat.ofDigits] at this
    exact hb this.symm

theorem natDecimal_injective : Function.Injective natDecimal := by
  intro a b h
  unfold natDecimal at h
  by_cases ha : a = 0 <;> by_cases hb : b = 0
  · exact ha.trans hb.symm
  · rw [if_pos ha, if_neg hb] at h
    exact absurd h.symm (natDecimal_not_zero_string b hb)
  · rw [if_neg ha, if_pos hb] at h
    exact absurd h (natDecimal_not_zero_string a ha)
  · rw [if_neg ha, if_neg hb] at h
    have hl := asString_cancel _ _ h
    have hmap := List.reverse_inj.mp hl
    have hdig := map_digitChar_cancel _ _
      (fun d hd => Nat.digits_lt_base (by norm_num) hd)
      (fun d hd => Nat.digits_lt_base (by norm_num) hd) hmap
    exact Nat.digits.injective 10 hdig

theorem string_data_inj {s t : String} (h : s.data = t.data) : s = t := by
  cases s
  cases t
  exact congrArg String.mk (by simpa using h)

theorem unary_ident_inj (a b : Nat)
    (h : "unary_" ++ natDecimal a = "unary_" ++ natDecimal b) : a = b := by
  have hd := congrArg String.data h
  simp only [String.data_append] at hd
  have hdata : (natDecimal a).data = (natDecimal b).data := List.append_cancel_left hd
  exact natDecimal_injective (string_data_inj hdata)

theorem newFunctions_ids (ops : List String) (c : Nat) :
    ((newFunctions ops c).1.map (fun f => f.name_id)) = List.range' c ops.length
    ∧ (newFunctions ops c).2 = c + ops.length := by
  induction ops generalizing c with
  | nil => simp [newFunctions]
  | cons op rest ih =>
    refine ⟨?_, ?_⟩
    · simp only [newFunctions, ElementWiseFunction.new, List.map_cons, List.length_cons,
        (ih (c + 1)).1]
      rw [List.range'_succ]
    · simp only [newFunctions, ElementWiseFunction.new, List.length_cons, (ih (c + 1)).2]
      omega

theorem divCeil_isLeastCover (n b : Nat) (hb : 0 < b) :
    isLeastCover (divCeil n b) n b := by
  constructor
  · rcases n with _ | n
    · simp
    · have h1 : divCeil (n + 1) b = n / b + 1 := by
        unfold divCeil
        rw [Nat.succ_add_sub_one]
        exact Nat.add_div_right n hb
      rw [h1]
      have h2 := (Nat.div_lt_iff_lt_mul hb).mp (Nat.lt_succ_self (n / b))
      rw [Nat.succ_eq_add_one] at h2
      omega
  · intro m hm
    unfold divCeil
    rcases n with _ | n
    · rw [Nat.zero_add, Nat.div_eq_of_lt (by omega)]
      exact Nat.zero_le m
    · have hlt : n + 1 + b - 1 < (m + 1) * b := by
        have hmb : (m + 1) * b = m * b + b := by ring
        omega
      have := (Nat.div_lt_iff_lt_mul hb).mpr hlt
      omega

theorem stridedBlocksize_pos (r : Nat) : 0 < stridedBlocksize r := by
  unfold stridedBlocksize
  split <;> omega

theorem run_dense_mono (k : UntypedElementWiseKernel) (t : TensorData)
    (ts : Nat) (m : String) (h : k.dense_kernel = some m) :
    ((k.run_with_query t ts).1).dense_kernel = some m := by
  unfold UntypedElementWiseKernel.run_with_query
  cases hc : t.layout.is_contiguous
  · cases hs : k.sparse_kernel <;> simp [hc, hs, h]
  · simp [hc, h]

theorem run_sparse_mono (k : UntypedElementWiseKernel) (t : TensorData)
    (ts : Nat) (m : String) (h : k.sparse_kernel = some m) :
    ((k.run_with_query t ts).1).sparse_kernel = some m := by
  unfold UntypedElementWiseKernel.run_with_query
  cases hc : t.layout.is_contiguous
  · simp [hc, h]
  · cases hs : k.dense_kernel <;> simp [hc, hs, h]

theorem runSeq_dense_mono (tensors : List TensorData)
    (k : UntypedElementWiseKernel) (ts : Nat) (m : String)
    (h : k.dense_kernel = some m) :
    (k.runSeq tensors ts).dense_kernel = some m := by
  induction tensors generalizing k with
  | nil => exact h
  | cons t rest ih =>
    exact ih (k.run_with_query t ts).1 (run_dense_mono k t ts m h)

theorem runSeq_sparse_mono (tensors : List TensorData)
    (k : UntypedElementWiseKernel) (ts : Nat) (m : String)
    (h : k.sparse_kernel = some m) :
    (k.runSeq tensors ts).sparse_kernel = some m := by
  induction tensors generalizing k with
  | nil => exact h
  | cons t rest ih =>
    exact ih (k.run_with_query t ts).1 (run_sparse_mono k t ts m h)

/-! Claim theorems. -/

/-- C2: for every non-empty chain of fused elementwise functions collected
nearest-to-root first by collect_element_wise_ops, modify_data applies the
functions to the value stream in reverse of the collected order: the
call-style emission nests the first-collected (nearest-to-root) function
outermost and the last-collected (earliest producer) innermost around
`data`, and the inline emission concatenates the function bodies in the
reversed collected order, earliest producer first. -/
theorem modify_data_applies_reverse_collected_order
    (g : ComputeGraphInner) (fuel key : Nat)
    (funcs : List ElementWiseFunction) (input : AnyComputeKey)
    (dt : DataTypeEnum)
    (hcollect : collectElementWiseOps g fuel key = some (funcs, input))
    (hne : funcs ≠ []) :
    (∀ kernel, (UntypedElementWiseKernel.new funcs dt).modify_data false kernel
        = kernel ++ ("data = " ++ nestCall funcs ++ ";\n"))
    ∧ (∀ kernel, (UntypedElementWiseKernel.new funcs dt).modify_data true kernel
        = kernel ++ inlineConcat funcs.reverse) := by
  constructor <;> intro kernel
  · simp only [UntypedElementWiseKernel.modify_data, UntypedElementWiseKernel.new,
      Bool.not_false, if_pos]
    rw [List.foldl_reverse, nestCall_foldr]
  · simp only [UntypedElementWiseKernel.modify_data, UntypedElementWiseKernel.new,
      Bool.not_true, if_neg]
    rw [foldl_inlineConcat]
    simp

/-- Witness for C2 on the demo graph: the chain of elementwise node 0
collects to `[fB, fA]` terminating at tensor 0, and the call-style emission
on the empty kernel string produces the nested application. -/
theorem modify_data_applies_reverse_collected_order_witness :
    collectElementWiseOps gDemo 3 0 = some ([fB, fA], .TensorComputeNodeKey 0)
    ∧ (UntypedElementWiseKernel.new [fB, fA] .F32).modify_data false ""
        = "" ++ ("data = " ++ nestCall [fB, fA] ++ ";\n") := by
  refine ⟨rfl, ?_⟩
  exact (modify_data_applies_reverse_collected_order gDemo 3 0 [fB, fA]
    (.TensorComputeNodeKey 0) .F32 rfl (by simp)).1 ""

/-- C9: every sequence of `ElementWiseFunction::new` calls threaded through
the single process-wide monotonic counter yields pairwise distinct
`name_id`s (they are exactly the consecutive counter values), hence the
emitted `unary_{id}` helper identifiers are pairwise distinct, and the
counter advances by exactly one per call. -/
theorem elementwise_unique_ids_distinct (ops : List String) (c : Nat) :
    ((newFunctions ops c).1.map (fun f => f.name_id)) = List.range' c ops.length
    ∧ ((newFunctions ops c).1.map (fun f => f.name_id)).Nodup
    ∧ ((newFunctions ops c).1.map helperIdent).Nodup
    ∧ (newFunctions ops c).2 = c + ops.length := by
  obtain ⟨hids, hcount⟩ := newFunctions_ids ops c
  refine ⟨hids, ?_, ?_, hcount⟩
  · rw [hids]
    exact List.nodup_range' _ _
  · have hcomp : (newFunctions ops c).1.map helperIdent
        = ((newFunctions ops c).1.map (fun f => f.name_id)).map
            (fun n => "unary_" ++ natDecimal n) := by
      rw [List.map_map]
      rfl
    rw [hcomp, hids]
    exact List.Nodup.map (fun a b h => unary_ident_inj a b h) (List.nodup_range' _ _)

/-- C1 analysis: `run_with_query` of element_wise.rs records a compute pass
unconditionally, with no empty-function-list skip; here the kernel with
zero functions run on a concrete contiguous tensor still dispatches a
`(1, 1, 1)` workgroup grid. (resolve.rs line 84 instead expects an
`Option` result, `None` for the skipped dispatch, per spec §7(d).) -/
theorem empty_elementwise_kernel_still_records_pass :
    (UntypedElementWiseKernel.empty .F32).functions = []
    ∧ ((UntypedElementWiseKernel.empty .F32).run_with_query tDemo 8).2.gridX = 1
    ∧ ((UntypedElementWiseKernel.empty .F32).run_with_query tDemo 8).2.gridY = 1
    ∧ ((UntypedElementWiseKernel.empty .F32).run_with_query tDemo 8).2.gridZ = 1 := by
  exact ⟨rfl, rfl, rfl, rfl⟩

/-- C5: for every elementwise dispatch, on the dense path the recorded grid
is `(ceil(N / (TILE_SIZE * BLOCKSIZE)), 1, 1)` with `N` the product of the
shape and `BLOCKSIZE = 256`, and on the strided path each axis `i` of the
tensor gets `ceil(shape_i / (TILE_SIZE * BLOCKSIZE))` workgroups on grid
dimension `i` while axes beyond the rank get 1 (`ceil` is expressed as the
least workgroup count covering the elements). -/
theorem elementwise_dispatch_grid (k : UntypedElementWiseKernel)
    (t : TensorData) (tileSize : Nat) (hts : 0 < tileSize) :
    (t.layout.is_contiguous = true →
      (k.run_with_query t tileSize).2.gridY = 1
      ∧ (k.run_with_query t tileSize).2.gridZ = 1
      ∧ isLeastCover ((k.run_with_query t tileSize).2.gridX)
          t.layout.shape.prod (tileSize * 256))
    ∧ (t.layout.is_contiguous = false →
      (∀ i s, i < 3 → t.layout.shape[i]? = some s →
        isLeastCover ((k.run_with_query t tileSize).2.gridDim i) s
          (tileSize * stridedBlocksize t.layout.rank))
      ∧ (∀ i, i < 3 → t.layout.shape[i]? = none →
        (k.run_with_query t tileSize).2.gridDim i = 1)) := by
  constructor
  · intro hc
    refine ⟨?_, ?_, ?_⟩
    · unfold UntypedElementWiseKernel.run_with_query
      simp [hc]
    · unfold UntypedElementWiseKernel.run_with_query
      simp [hc]
    · have hx : (k.run_with_query t tileSize).2.gridX
          = divCeil t.layout.shape.prod (tileSize * 256) := by
        unfold UntypedElementWiseKernel.run_with_query
        simp [hc]
      rw [hx]
      exact divCeil_isLeastCover _ _ (Nat.mul_pos hts (by norm_num))
  · intro hc
    have hpos : 0 < tileSize * stridedBlocksize t.layout.rank :=
      Nat.mul_pos hts (stridedBlocksize_pos _)
    constructor
    · intro i s hi hs
      have hd : (k.run_with_query t tileSize).2.gridDim i
          = divCeil s (tileSize * stridedBlocksize t.layout.rank) := by
        unfold UntypedElementWiseKernel.run_with_query
        interval_cases i <;> simp [hc, ComputePass.gridDim, hs]
      rw [hd]
      exact divCeil_isLeastCover _ _ hpos
    · intro i hi hs
      unfold UntypedElementWiseKernel.run_with_query
      interval_cases i <;> simp [hc, ComputePass.gridDim, hs]

/-- Witness for C5 on the strided fixture tensor: axis 0 of shape 3 gets
the least covering workgroup count for `8 * BLOCKSIZE` elements per
workgroup, and the axis beyond the rank dispatches one workgroup. -/
theorem elementwise_dispatch_grid_witness :
    isLeastCover (((UntypedElementWiseKernel.new [fA] .F32).run_with_query tStrided 8).2.gridDim 0)
      3 (8 * stridedBlocksize tStrided.layout.rank)
    ∧ ((UntypedElementWiseKernel.new [fA] .F32).run_with_query tStrided 8).2.gridDim 2 = 1 := by
  constructor
  · exact ((elementwise_dispatch_grid (UntypedElementWiseKernel.new [fA] .F32)
      tStrided 8 (by decide)).2 rfl).1 0 3 (by decide) rfl
  · exact ((elementwise_dispatch_grid (UntypedElementWiseKernel.new [fA] .F32)
      tStrided 8 (by decide)).2 rfl).2 2 (by decide) rfl

/-- C6: a freshly emitted elementwise shader is `tiled_map` at blocksize
256 on the dense path and at `floor(256^(1/rank))` (256, 16, 6 for ranks
1, 2, 3) on the strided path; the emitted `@workgroup_size` attribute
carries one `BLOCKSIZE` entry on the dense path, denoting the triple
`(BLOCKSIZE, 1, 1)` under the WGSL default of 1 for unspecified dimensions,
and `BLOCKSIZE` repeated `rank` times on the strided path. -/
theorem emitted_workgroup_size (k : UntypedElementWiseKernel)
    (t : TensorData) (tileSize : Nat)
    (hfresh : (if t.layout.is_contiguous then k.dense_kernel else k.sparse_kernel) = none) :
    (k.run_with_query t tileSize).2.module
      = k.tiled_map (if t.layout.is_contiguous then 256 else stridedBlocksize t.layout.rank)
          tileSize true t.layout.is_contiguous t.layout
    ∧ (t.layout.is_contiguous = true →
        workgroupSizeFragment true t.layout.rank = "BLOCKSIZE"
        ∧ wgslWorkgroupTriple (workgroupEntries true t.layout.rank 256) = (256, 1, 1))
    ∧ (t.layout.is_contiguous = false →
        workgroupEntries false t.layout.rank (stridedBlocksize t.layout.rank)
          = List.replicate t.layout.rank (stridedBlocksize t.layout.rank)
        ∧ (t.layout.rank = 1 → stridedBlocksize t.layout.rank = 256)
        ∧ (t.layout.rank = 2 → stridedBlocksize t.layout.rank = 16)
        ∧ (t.layout.rank = 3 → stridedBlocksize t.layout.rank = 6)) := by
  refine ⟨?_, ?_, ?_⟩
  · cases hc : t.layout.is_contiguous <;>
      rw [hc] at hfresh <;>
      simp only [Bool.false_eq_true, if_false, if_pos, reduceIte] at hfresh <;>
      unfold UntypedElementWiseKernel.run_with_query <;>
      simp [hc, hfresh]
  · intro hc
    exact ⟨rfl, rfl⟩
  · intro hc
    refine ⟨rfl, ?_, ?_, ?_⟩ <;> intro hr <;> rw [hr] <;> rfl

/-- Witness for C6 on a fresh kernel over the contiguous fixture tensor:
the pass module is the dense `tiled_map` emission and the workgroup triple
denoted by the attribute is `(256, 1, 1)`. -/
theorem emitted_workgroup_size_witness :
    ((UntypedElementWiseKernel.new [fB] .F32).run_with_query tDemo 8).2.module
      = (UntypedElementWiseKernel.new [fB] .F32).tiled_map
          (if tDemo.layout.is_contiguous then 256 else stridedBlocksize tDemo.layout.rank)
          8 true tDemo.layout.is_contiguous tDemo.layout
    ∧ wgslWorkgroupTriple (workgroupEntries true tDemo.layout.rank 256) = (256, 1, 1) := by
  constructor
  · exact (emitted_workgroup_size (UntypedElementWiseKernel.new [fB] .F32) tDemo 8 rfl).1
  · exact ((emitted_workgroup_size (UntypedElementWiseKernel.new [fB] .F32) tDemo 8 rfl).2.1 rfl).2

/-- C7: on every run of an elementwise kernel instance, the dense lazy slot
is consulted and populated exactly on the contiguous path (the strided slot
exactly on the non-contiguous path) while the other slot is untouched; a
slot that already holds a module is reused verbatim and the kernel state is
unchanged, so each of the two slots compiles its module at most once over
the kernel's lifetime, and a populated slot persists through any further
sequence of runs. -/
theorem elementwise_module_cache (k : UntypedElementWiseKernel)
    (t : TensorData) (tileSize : Nat) (tensors : List TensorData) :
    (t.layout.is_contiguous = true →
      (k.run_with_query t tileSize).1.sparse_kernel = k.sparse_kernel
      ∧ (k.run_with_query t tileSize).1.dense_kernel
          = some (k.run_with_query t tileSize).2.module
      ∧ ∀ m, k.dense_kernel = some m →
          (k.run_with_query t tileSize).2.module = m
          ∧ (k.run_with_query t tileSize).1 = k)
    ∧ (t.layout.is_contiguous = false →
      (k.run_with_query t tileSize).1.dense_kernel = k.dense_kernel
      ∧ (k.run_with_query t tileSize).1.sparse_kernel
          = some (k.run_with_query t tileSize).2.module
      ∧ ∀ m, k.sparse_kernel = some m →
          (k.run_with_query t tileSize).2.module = m
          ∧ (k.run_with_query t tileSize).1 = k)
    ∧ (∀ m, k.dense_kernel = some m →
        (k.runSeq tensors tileSize).dense_kernel = some m)
    ∧ (∀ m, k.sparse_kernel = some m →
        (k.runSeq tensors tileSize).sparse_kernel = some m) := by
  refine ⟨?_, ?_, ?_, ?_⟩
  · intro hc
    unfold UntypedElementWiseKernel.run_with_query
    cases hd : k.dense_kernel <;>
      simp [hc, hd]
  · intro hc
    unfold UntypedElementWiseKernel.run_with_query
    cases hs : k.sparse_kernel <;>
      simp [hc, hs]
  · intro m hm
    exact runSeq_dense_mono tensors k tileSize m hm
  · intro m hm
    exact runSeq_sparse_mono tensors k tileSize m hm

/-- Witness for C7: a fresh kernel run on the contiguous fixture leaves the
strided slot empty and stores the used module in the dense slot. -/
theorem elementwise_module_cache_witness :
    ((UntypedElementWiseKernel.new [fC] .F32).run_with_query tDemo 8).1.sparse_kernel
      = (UntypedElementWiseKernel.new [fC] .F32).sparse_kernel
    ∧ ((UntypedElementWiseKernel.new [fC] .F32).run_with_query tDemo 8).1.dense_kernel
      = some ((UntypedElementWiseKernel.new [fC] .F32).run_with_query tDemo 8).2.module := by
  constructor
  · exact ((elementwise_module_cache (UntypedElementWiseKernel.new [fC] .F32)
      tDemo 8 []).1 rfl).1
  · exact ((elementwise_module_cache (UntypedElementWiseKernel.new [fC] .F32)
      tDemo 8 []).1 rfl).2.1

/-- C3: resolving an elementwise node whose collected chain terminates at
producer `P` routes as follows: if `P` is a reduce node the chain becomes
the `then` (post-elementwise) stage of resolve_reduce_then on that node; if
`P` is a pairwise node it becomes the post stage of resolve_pair_wise_then;
for every other kind of `P` the producer is resolved to a materialized
tensor and the chain runs as a standalone elementwise kernel over it. -/
theorem elementwise_chain_absorption
    (ext : ExternalKernels) (g : ComputeGraphInner) (tileSize fuel key : Nat)
    (funcs : List ElementWiseFunction) (input : AnyComputeKey)
    (encoder : List ComputePass)
    (hcollect : collectElementWiseOps g (fuel + 1) key = some (funcs, input)) :
    (∀ rk, input = .ReduceComputeNodeKey rk →
        resolveElementWise ext g tileSize (fuel + 1) key encoder
          = resolveReduceThen ext g tileSize fuel rk funcs encoder)
    ∧ (∀ pk, input = .PairWiseComputeNodeKey pk →
        resolveElementWise ext g tileSize (fuel + 1) key encoder
          = resolvePairWiseThen ext g tileSize fuel pk funcs encoder)
    ∧ (absorbable input = false →
        resolveElementWise ext g tileSize (fuel + 1) key encoder
          = match resolveGo ext g tileSize fuel input encoder with
            | none => none
            | some r =>
              let kernel := UntypedElementWiseKernel.new funcs r.1.datatype
              let rr := kernel.runOpt r.1 tileSize
              some (rr.1.getD r.1, r.2 ++ rr.2.2)) := by
  refine ⟨?_, ?_, ?_⟩
  · intro rk h
    subst h
    unfold resolveElementWise resolveReduceThen
    simp only [resolveCore, hcollect]
  · intro pk h
    subst h
    unfold resolveElementWise resolvePairWiseThen
    simp only [resolveCore, hcollect]
  · intro hab
    cases input
    case ReduceComputeNodeKey rk => exact absurd hab (by simp [absorbable])
    case PairWiseComputeNodeKey pk => exact absurd hab (by simp [absorbable])
    all_goals
      unfold resolveElementWise resolveGo
    all_goals
      simp only [resolveCore, hcollect]
    all_goals (split <;> simp [*])

/-- Witness for C3 on the demo graph: elementwise node 2 collects to the
chain `[fC]` terminating at reduce node 0, and its resolution routes to
resolve_reduce_then with that chain as the post stage. -/
theorem elementwise_chain_absorption_witness :
    collectElementWiseOps gDemo 2 2 = some ([fC], .ReduceComputeNodeKey 0)
    ∧ resolveElementWise extDemo gDemo 8 2 2 []
        = resolveReduceThen extDemo gDemo 8 1 0 [fC] [] := by
  refine ⟨rfl, ?_⟩
  exact (elementwise_chain_absorption extDemo gDemo 8 1 2 [fC]
    (.ReduceComputeNodeKey 0) [] rfl).1 0 rfl

/-- C4: when resolving a pairwise (resp. reduce) node, an operand that is
an elementwise node is peeled into that operand's pre-elementwise stage of
the producer kernel — one pre stage per operand for pairwise, one for
reduce — the peel stopping at the first non-elementwise ancestor, and the
producer resolves that ancestor instead of the elementwise input. -/
theorem producer_inputs_peeled_into_pre_stages
    (ext : ExternalKernels) (g : ComputeGraphInner) (tileSize fuel : Nat)
    (pk : Nat) (pop : PairWiseOperation) (e1 e2 : Nat)
    (fs1 fs2 : List ElementWiseFunction) (p1 p2 : AnyComputeKey)
    (pThen : List ElementWiseFunction) (pEnc : List ComputePass)
    (rk : Nat) (rop : ReduceOperation) (e3 : Nat)
    (fs3 : List ElementWiseFunction) (p3 : AnyComputeKey)
    (rThen : List ElementWiseFunction) (rEnc : List ComputePass)
    (hp : g.pair_wise pk = some pop)
    (h1 : pop.first = .ElementWiseComputeNodeKey e1)
    (h2 : pop.second = .ElementWiseComputeNodeKey e2)
    (hc1 : collectElementWiseOps g (fuel + 1) e1 = some (fs1, p1))
    (hc2 : collectElementWiseOps g (fuel + 1) e2 = some (fs2, p2))
    (hr : g.reduce rk = some rop)
    (h3 : rop.value = .ElementWiseComputeNodeKey e3)
    (hc3 : collectElementWiseOps g (fuel + 1) e3 = some (fs3, p3)) :
    resolvePairWiseThen ext g tileSize (fuel + 1) pk pThen pEnc
      = (match resolveGo ext g tileSize fuel p1 pEnc with
         | none => none
         | some r1 =>
           match resolveGo ext g tileSize fuel p2 r1.2 with
           | none => none
           | some r2 =>
             let rr := ext.pairRun
               (pairKernelFor pop.function r1.1.datatype fs1 fs2 pThen) r1.1 r2.1
             some (rr.1.getD r2.1, r2.2 ++ rr.2))
    ∧ resolveReduceThen ext g tileSize (fuel + 1) rk rThen rEnc
      = (match resolveGo ext g tileSize fuel p3 rEnc with
         | none => none
         | some r =>
           let rr := ext.reduceRun
             (reduceKernelFor rop.function r.1.datatype fs3 rThen) r.1 rop.axis
           some (rr.1, r.2 ++ rr.2)) := by
  constructor
  · unfold resolvePairWiseThen resolveGo
    simp only [resolveCore, hp, h1, h2, peelElementWise, hc1, hc2]
    split <;> simp [*, pairKernelFor, UntypedPairWiseKernel.new,
      UntypedPairWiseKernel.set_pre_element_wise,
      UntypedPairWiseKernel.set_post_element_wise,
      UntypedElementWiseKernel.out_datatype]
    split <;> simp [*]
  · unfold resolveReduceThen resolveGo
    simp only [resolveCore, hr, h3, peelElementWise, hc3]
    split <;> simp [*, reduceKernelFor, UntypedReduceKernel.new,
      UntypedReduceKernel.set_pre_element_wise,
      UntypedReduceKernel.set_post_element_wise,
      UntypedElementWiseKernel.out_datatype]

/-- Witness for C4 on the demo graph: pairwise node 0 peels its two
elementwise operands into per-operand pre stages with the producers
resolved at the underlying tensors, and reduce node 1 peels its elementwise
input into its single pre stage. -/
theorem producer_inputs_peeled_into_pre_stages_witness :
    resolvePairWiseThen extDemo gDemo 8 3 0 [] []
      = (match resolveGo extDemo gDemo 8 2 (.TensorComputeNodeKey 0) [] with
         | none => none
         | some r1 =>
           match resolveGo extDemo gDemo 8 2 (.TensorComputeNodeKey 1) r1.2 with
           | none => none
           | some r2 =>
             let rr := extDemo.pairRun
               (pairKernelFor "add" r1.1.datatype [fB, fA] [fD] []) r1.1 r2.1
             some (rr.1.getD r2.1, r2.2 ++ rr.2))
    ∧ resolveReduceThen extDemo gDemo 8 3 1 [fC] []
      = (match resolveGo extDemo gDemo 8 2 (.TensorComputeNodeKey 0) [] with
         | none => none
         | some r =>
           let rr := extDemo.reduceRun
             (reduceKernelFor "sum" r.1.datatype [fA] [fC]) r.1 0
           some (rr.1, r.2 ++ rr.2)) := by
  exact producer_inputs_peeled_into_pre_stages extDemo gDemo 8 2 0
    ⟨.ElementWiseComputeNodeKey 0, .ElementWiseComputeNodeKey 3, "add"⟩ 0 3
    [fB, fA] [fD] (.TensorComputeNodeKey 0) (.TensorComputeNodeKey 1) [] []
    1 ⟨.ElementWiseComputeNodeKey 1, 0, "sum"⟩ 1 [fA] (.TensorComputeNodeKey 0)
    [fC] [] rfl rfl rfl rfl rfl rfl rfl rfl

/-- C8: resolving a map-layout node appends no compute pass beyond those
appended by resolving its input: the encoder contents pass through
unchanged and the layout transform is applied as a pure metadata operation
on the resolved input tensor. -/
theorem maplayout_appends_no_pass
    (ext : ExternalKernels) (g : ComputeGraphInner) (tileSize fuel key : Nat)
    (op : MapLayoutOperation) (encoder : List ComputePass)
    (h : g.map_layout key = some op) :
    resolveGo ext g tileSize (fuel + 1) (.MapLayoutComputeNodeKey key) encoder
      = (resolveGo ext g tileSize fuel op.input encoder).map
          (fun r => (op.run r.1, r.2)) := by
  unfold resolveGo
  simp only [resolveCore, h]
  split <;> simp [*]

/-- Witness for C8 on the demo graph: the map-layout node over tensor 0
resolves to the transformed tensor with the encoder passed through. -/
theorem maplayout_appends_no_pass_witness :
    resolveGo extDemo gDemo 8 2 (.MapLayoutComputeNodeKey 0) []
      = (resolveGo extDemo gDemo 8 1 mlDemo.input []).map
          (fun r => (mlDemo.run r.1, r.2)) := by
  exact maplayout_appends_no_pass extDemo gDemo 8 1 0 mlDemo [] rfl

/-- C10: when the pairwise kernel run produces no output tensor, the
resolver returns the resolved second operand (the terminal of the second
operand's peeled chain), not the first operand. -/
theorem pairwise_empty_run_returns_second
    (ext : ExternalKernels) (g : ComputeGraphInner) (tileSize fuel pk : Nat)
    (pop : PairWiseOperation)
    (fs1 fs2 : List ElementWiseFunction) (p1 p2 : AnyComputeKey)
    (thenFns : List ElementWiseFunction) (encoder : List ComputePass)
    (first second : TensorData) (enc1 enc2 : List ComputePass)
    (hp : g.pair_wise pk = some pop)
    (hpeel1 : peelElementWise g (fuel + 1) pop.first = some (fs1, p1))
    (hpeel2 : peelElementWise g (fuel + 1) pop.second = some (fs2, p2))
    (hres1 : resolveGo ext g tileSize fuel p1 encoder = some (first, enc1))
    (hres2 : resolveGo ext g tileSize fuel p2 enc1 = some (second, enc2))
    (hrun : (ext.pairRun (pairKernelFor pop.function first.datatype fs1 fs2 thenFns)
        first second).1 = none) :
    resolvePairWiseThen ext g tileSize (fuel + 1) pk thenFns encoder
      = some (second, enc2
          ++ (ext.pairRun (pairKernelFor pop.function first.datatype fs1 fs2 thenFns)
                first second).2) := by
  unfold resolveGo at hres1 hres2
  unfold resolvePairWiseThen
  simp only [resolveCore, hp, hpeel1, hpeel2, hres1, hres2]
  simp [pairKernelFor, UntypedPairWiseKernel.new,
    UntypedPairWiseKernel.set_pre_element_wise,
    UntypedPairWiseKernel.set_post_element_wise,
    UntypedElementWiseKernel.out_datatype] at hrun ⊢
  simp [hrun]

/-- Witness for C10 on the demo graph with an external pairwise kernel that
produces no output: the resolver returns the second resolved tensor. -/
theorem pairwise_empty_run_returns_second_witness :
    resolvePairWiseThen extNone gDemo 8 3 0 [] []
      = some (tDemo2, []
          ++ (extNone.pairRun (pairKernelFor "add" tDemo.datatype [fB, fA] [fD] [])
                tDemo tDemo2).2) := by
  exact pairwise_empty_run_returns_second extNone gDemo 8 2 0
    ⟨.ElementWiseComputeNodeKey 0, .ElementWiseComputeNodeKey 3, "add"⟩
    [fB, fA] [fD] (.TensorComputeNodeKey 0) (.TensorComputeNodeKey 1)
    [] [] tDemo tDemo2 [] [] rfl rfl rfl rfl rfl rfl

end WKF
